import Mathlib

/-!
Verification of the Jupyter Notebook `application-extension` plugin collection
(`src/packages/application-extension/src/index.ts`): the Router + Tree Resolver
protocol, the Tree Path Updater, the opener plugin, and the Sidebar Visibility
Coordinator (toggle command, menu rebuild, command-palette mirror).

Paths and query strings are embedded as `List Char` (via `String.data`) so all
definitions are executable and decidable.  External collaborators that are not
part of the repository sources (the Lumino/JupyterLab `Router`, `URLExt`,
`PageConfig`, the `NotebookShell` sidebar primitives, and `SideBarPalette`
from `./sidebarpalette`) are modelled from the specification where noted.
-/

namespace NotebookApp

/-- Does `pat` occur as a contiguous substring of `s`?  This is exactly the
success condition of a JavaScript unanchored regex search for a literal. -/
def containsSub (pat : List Char) : List Char → Bool
  | [] => pat.isPrefixOf ([] : List Char)
  | c :: cs => pat.isPrefixOf (c :: cs) || containsSub pat cs

/-- JavaScript `.` in a regex matches every character except the four line
terminators `\n`, `\r`, U+2028 and U+2029. -/
def isLineTerm (c : Char) : Bool :=
  c = '\n' || c = '\r' || c = '\u2028' || c = '\u2029'

/-- `TREE_PATTERN = new RegExp('/(notebooks|edit)/(.*)')` (src line 70), as a
JavaScript unanchored `test`: since `(.*)` may be empty, the regex finds a
match exactly when `/notebooks/` or `/edit/` occurs somewhere in the input. -/
def jsTestDocPattern (s : String) : Bool :=
  containsSub "/notebooks/".data s.data || containsSub "/edit/".data s.data

/-- `treePattern = new RegExp('/(/tree/.*)?')` (src line 846), as a JavaScript
unanchored `test`: the group `(/tree/.*)` is optional, so the regex finds a
match exactly when the input contains a `/` character anywhere. -/
def jsTestTreeResolvePattern (s : String) : Bool :=
  containsSub "/".data s.data

/-- Capture group 2 of the leftmost JavaScript match of `TREE_PATTERN`
(`/(notebooks|edit)/(.*)`): the greedy run of non-line-terminator characters
following the leftmost occurrence of `/notebooks/` or `/edit/`; `none` when
the pattern does not match at all. -/
def docPatternCapture : List Char → Option (List Char)
  | [] => none
  | c :: cs =>
    if "/notebooks/".data.isPrefixOf (c :: cs) then
      some (((c :: cs).drop 11).takeWhile (fun ch => !isLineTerm ch))
    else if "/edit/".data.isPrefixOf (c :: cs) then
      some (((c :: cs).drop 6).takeWhile (fun ch => !isLineTerm ch))
    else
      docPatternCapture cs

/-- Split a character list at every occurrence of `sep`, like JavaScript
`String.prototype.split` with a single-character separator (`"".split(x)`
yields `[""]`). -/
def splitOnChar (sep : Char) : List Char → List (List Char)
  | [] => [[]]
  | c :: cs =>
    let r := splitOnChar sep cs
    if c = sep then [] :: r
    else
      match r with
      | [] => [[c]]
      | g :: gs => (c :: g) :: gs

/-- Modelled from the spec: `URLExt.queryStringToObject` from
`@jupyterlab/coreutils` is not under `src/`.  Per the spec ("parse the query
string, extract and remove a `file-browser-path` key"), the query string is
stripped of a leading `?`, split on `&`, and each piece split on `=` into a
key (before the first `=`) and a value (between the first and second `=`,
mirroring the JavaScript destructuring of `split('=')`); pieces with an empty
key are dropped.  Percent-decoding of values is not modelled (no claim
depends on it). -/
def queryPairs (search : String) : List (List Char × List Char) :=
  let s :=
    match search.data with
    | '?' :: rest => rest
    | other => other
  (splitOnChar '&' s).filterMap fun piece =>
    match splitOnChar '=' piece with
    | [] => none
    | k :: rest => if k = [] then none else some (k, rest.headD [])

/-- Object-indexing semantics for the parsed query: the last assignment to a
key wins. -/
def queryGet (search : String) (key : String) : Option String :=
  ((queryPairs search).reverse.find? fun e => e.1 == key.data).map
    fun e => String.mk e.2

/-- The resolution value `{browser, file}` of the Tree Resolver
(`JupyterFrontEnd.ITreeResolver.Paths`). -/
structure TreePaths where
  browser : String
  file : String
deriving DecidableEq, Repr

/-- The observable state of the Tree Resolver plugin (src lines 843-888): the
`DisposableSet`'s disposed flag, the `PromiseDelegate`'s resolution state
(`none` while pending, `some v` once resolved with `v`), and instrumentation
counting every `set.dispose()` and `delegate.resolve(...)` call. -/
structure TreeResolverState where
  isDisposed : Bool
  resolved : Option (Option TreePaths)
  disposeCount : Nat
  resolveCount : Nat
deriving DecidableEq, Repr

/-- The Tree Resolver's state at activation: set not disposed, promise
pending. -/
def initTreeState : TreeResolverState :=
  { isDisposed := false, resolved := none, disposeCount := 0, resolveCount := 0 }

/-- The `browser` component extracted by the resolve-tree command:
`query['file-browser-path'] || ''` (src line 856); a missing key (and,
identically under `||`, an empty value) yields the empty string. -/
def browserOf (search : String) : String :=
  (queryGet search "file-browser-path").getD ""

/-- The `application:resolve-tree` command execute (src lines 850-865):
return immediately if the set is disposed; otherwise extract
`file-browser-path` from the query, dispose the set, and resolve the promise
with `{browser, file: PageConfig.getOption('treePath')}`.  `cfgTreePath` is
the page configuration's `treePath` value. -/
def execResolveTree (cfgTreePath : String) (search : String)
    (st : TreeResolverState) : TreeResolverState :=
  if st.isDisposed then st
  else
    { isDisposed := true
      resolved := some (some { browser := browserOf search, file := cfgTreePath })
      disposeCount := st.disposeCount + 1
      resolveCount := st.resolveCount + 1 }

/-- The catch-all `router.routed` listener (src lines 874-880): return if the
set is disposed; otherwise dispose the set and resolve the promise with
`null`. -/
def routedListener (st : TreeResolverState) : TreeResolverState :=
  if st.isDisposed then st
  else
    { isDisposed := true
      resolved := some none
      disposeCount := st.disposeCount + 1
      resolveCount := st.resolveCount + 1 }

/-- An event delivered to the Tree Resolver after activation: either the
resolve-tree command executing for a routed location with the given query
string, or the router's `routed` signal firing. -/
inductive TreeEvent where
  | execTree (search : String)
  | routed
deriving DecidableEq, Repr

/-- Deliver one event to the Tree Resolver. -/
def stepTree (cfgTreePath : String) (st : TreeResolverState)
    (e : TreeEvent) : TreeResolverState :=
  match e with
  | .execTree search => execResolveTree cfgTreePath search st
  | .routed => routedListener st

/-- Deliver a sequence of events to the Tree Resolver, starting from the
activation state. -/
def runTree (cfgTreePath : String) (es : List TreeEvent) : TreeResolverState :=
  es.foldl (stepTree cfgTreePath) initTreeState

/-- The outcome of a recognized condition: the resolve-tree command yields
`{browser, file}`, the catch-all listener yields `null`. -/
def eventOutcome (cfgTreePath : String) : TreeEvent → Option TreePaths
  | .execTree search => some { browser := browserOf search, file := cfgTreePath }
  | .routed => none

/-! ### The opener plugin (src lines 175-219) -/

/-- The default notebook factory name (src line 60). -/
def NOTEBOOK_FACTORY : String := "Notebook"

/-- The editor factory name (src line 65). -/
def EDITOR_FACTORY : String := "Editor"

/-- What the executor of the promise built at src lines 200-213 does: it
calls `docManager.open(file, factory, ...)` once, and it never invokes the
`resolve` or `reject` callbacks handed to it (the executor's parameter list
is empty). -/
structure ExecutorTrace where
  opens : List (String × String)
  resolveCalls : Nat
  rejectCalls : Nat
deriving DecidableEq, Repr

/-- A promise settles only if its executor invoked `resolve` or `reject`. -/
def promiseSettles (t : ExecutorTrace) : Bool :=
  decide (0 < t.resolveCalls + t.rejectCalls)

/-- Modelled from the spec: `PathExt.extname` together with the factory
choice — "determined by file extension: `.ipynb` → notebook factory, else →
editor factory". -/
def factoryFor (file : String) : String :=
  if file.data.reverse.take 6 = ".ipynb".data.reverse then NOTEBOOK_FACTORY
  else EDITOR_FACTORY

/-- The `router:tree` command execute of the opener plugin (src lines
190-214): match the routed path against `TREE_PATTERN`, destructure capture
group 2, return early when it is missing or empty; otherwise await a newly
constructed promise whose executor opens the document with the factory chosen
by extension.  `none` means the execute returned (its promise fulfills);
`some t` means it awaits the constructed promise with executor trace `t`.
Percent-decoding of the captured path is not modelled (no claim depends on
it). -/
def openerExecute (path : String) : Option ExecutorTrace :=
  match docPatternCapture path.data with
  | none => none
  | some [] => none
  | some cs =>
    let file := String.mk cs
    some { opens := [(file, factoryFor file)], resolveCalls := 0, rejectCalls := 0 }

/-- Does the promise returned by the `router:tree` command execute ever
fulfill?  It does when the execute returns early, or when the awaited
promise settles. -/
def openerFulfills (path : String) : Bool :=
  match openerExecute path with
  | none => true
  | some t => promiseSettles t

/-! ### One full navigation through the Router (for the Tree Resolver)

Modelled from the spec: the Lumino/JupyterLab `Router` is not under `src/`.
Per the spec, `route()` evaluates the current browser path against all
registered patterns, executes the matching bound actions (the opener's
`router:tree` on `TREE_PATTERN`, the resolver's `application:resolve-tree`
on `treePattern`), awaiting each, and emits the `routed` notification to all
subscribers afterwards, regardless of match outcome.  When the opener's
command pends forever (it awaits a never-settling promise), the route never
reaches the later steps. -/
def routeNavigation (cfgTreePath : String) (path : String) (search : String)
    (st : TreeResolverState) : TreeResolverState :=
  if jsTestDocPattern path && !openerFulfills path then
    st
  else
    let st1 :=
      if jsTestTreeResolvePattern path then execResolveTree cfgTreePath search st
      else st
    routedListener st1

/-! ### The Tree Path Updater (src lines 896-910) -/

/-- The observable state of the Tree Path Updater: the page configuration's
`treePath` value, and instrumentation counting every
`router.navigate(..., {skipRouting: true})` call and every
`PageConfig.setOption('treePath', ...)` write. -/
structure UpdaterState where
  treePath : String
  navigations : Nat
  writes : Nat
deriving DecidableEq, Repr

/-- `updateTreePath` (src lines 897-908): when the argument differs from the
recorded `treePath`, navigate once with `skipRouting` and persist the new
value; otherwise do nothing.  The joined URL is built by the external
`URLExt.join`/`URLExt.encodeParts` and is not modelled (no claim depends on
its text). -/
def updateTreePath (st : UpdaterState) (p : String) : UpdaterState :=
  if p ≠ st.treePath then
    { treePath := p, navigations := st.navigations + 1, writes := st.writes + 1 }
  else st

/-! ### The sidebar command-palette mirror -/

/-- A sidebar area: `left` or `right` (`SideBarPanel.Area`). -/
inductive Side where
  | left
  | right
deriving DecidableEq, Repr

/-- An entry of the sidebar command-palette mirror, keyed by the widget id
and the side. -/
structure PaletteEntry where
  widgetId : String
  side : Side
deriving DecidableEq, Repr

/-- Modelled from the spec: `SideBarPalette` (`./sidebarpalette`, not under
`src/`).  Per the spec, the mirror holds entries keyed by `(widgetId, side)`
pairs; `addItem` appends an entry and `removeItem` removes exactly the
entries matching both the widget id and the side. -/
def paletteAddItem (p : List PaletteEntry) (widgetId : String) (side : Side) :
    List PaletteEntry :=
  p ++ [{ widgetId := widgetId, side := side }]

/-- Modelled from the spec: `SideBarPalette.removeItem` removes the entries
matching both the widget id and the side. -/
def paletteRemoveItem (p : List PaletteEntry) (widgetId : String) (side : Side) :
    List PaletteEntry :=
  p.filter fun e => !(e.widgetId == widgetId && e.side == side)

/-- A panel host notification: a widget was added to or removed from a
side. -/
inductive PanelAction where
  | add
  | remove
deriving DecidableEq, Repr

/-- The palette half of `sidebarUpdated` (src lines 776-782), as a function
of the `sideBarPalette` binding its guard reads: when that binding is
non-null, an add event appends an entry to it and a remove event removes the
matching entry (returning the binding's new contents); when it is null
nothing happens (`none`).  In the program, the binding read here is the
outer `let sideBarPalette` of src line 615 — see `outerSideBarPalette`. -/
def sidebarUpdatedPalette (sideBarPalette : Option (List PaletteEntry))
    (side : Side) (widgetId : String) (action : PanelAction) :
    Option (List PaletteEntry) :=
  match sideBarPalette with
  | none => none
  | some p =>
    match action with
    | .add => some (paletteAddItem p widgetId side)
    | .remove => some (paletteRemoveItem p widgetId side)

/-- The value of the outer `let sideBarPalette: SideBarPalette | null = null`
binding (src line 615) for the whole session.  It is never assigned: the
initialization at src line 799 reads `const sideBarPalette = new
SideBarPalette({...})`, which declares a new block-scoped binding inside the
`if (palette)` block and shadows the outer one, so the outer binding — the
one the guard at src line 776 consults — stays null forever, whether or not
a command palette is present. -/
def outerSideBarPalette : Option (List PaletteEntry) := none

/-! ### The sidebar toggle command (src lines 622-699) -/

/-- Modelled from the spec: the per-side state exposed by the
`NotebookShell` collaborator — "collapsed per side" and "currently active
widget id per side" as synchronously queryable state; a collapsed side may
remember which widget was last active. -/
structure SideState where
  collapsed : Bool
  currentWidget : Option String
deriving DecidableEq, Repr

/-- The observable state the toggle command acts on: both side states, the
current main-area widget id (if any), and a log of `activateById` calls made
on the main shell. -/
structure ShellState where
  left : SideState
  right : SideState
  mainCurrent : Option String
  activations : List String
deriving DecidableEq, Repr

/-- Modelled from the spec: `NotebookShell.expandLeft`/`expandRight` —
expand the side and activate the given widget there. -/
def expandSide (_s : SideState) (id : String) : SideState :=
  { collapsed := false, currentWidget := some id }

/-- Modelled from the spec: `NotebookShell.collapseLeft`/`collapseRight` —
collapse the side (the last active widget stays remembered). -/
def collapseSide (s : SideState) : SideState :=
  { s with collapsed := true }

/-- Read one side of the shell state. -/
def ShellState.side (st : ShellState) : Side → SideState
  | .left => st.left
  | .right => st.right

/-- Replace one side of the shell state. -/
def ShellState.setSide (st : ShellState) : Side → SideState → ShellState
  | .left, s => { st with left := s }
  | .right, s => { st with right := s }

/-- The `application:toggle-panel` command execute (src lines 640-671), for a
given side and widget id: expand when the side is collapsed or a different
widget (or none) is current; otherwise collapse and, if a main-area widget is
current, re-activate it by id. -/
def togglePanel (st : ShellState) (side : Side) (id : String) : ShellState :=
  let s := st.side side
  if s.collapsed then
    st.setSide side (expandSide s id)
  else if s.currentWidget ≠ some id then
    st.setSide side (expandSide s id)
  else
    let st1 := st.setSide side (collapseSide s)
    match st1.mainCurrent with
    | some w => { st1 with activations := st1.activations ++ [w] }
    | none => st1

/-- The `isToggled` query of the toggle command (src lines 672-698): toggled
iff the side is not collapsed and its current widget id equals the
argument. -/
def togglePanelIsToggled (st : ShellState) (side : Side) (id : String) : Bool :=
  let s := st.side side
  if s.collapsed then false
  else
    match s.currentWidget with
    | none => false
    | some w => w == id

/-! ### The View-menu rebuild (src lines 610-613 and 708-741) -/

/-- A panel widget as seen by the menu rebuild: its id and its title
caption. -/
structure MenuWidget where
  id : String
  caption : String
deriving DecidableEq, Repr

/-- The state of the View menu and the `sideBarMenu` handle map.  Each
submenu entry attached to the parent View menu carries a fresh numeric
handle (the `IDisposable` returned by `menu.viewMenu.addItem`, modelled from
the spec: disposing it removes exactly that entry), its side, and its item
list of `(label, widgetId)` pairs. -/
structure MenuState where
  viewMenu : List (Nat × Side × List (String × String))
  leftHandle : Option Nat
  rightHandle : Option Nat
  fresh : Nat
deriving DecidableEq, Repr

/-- The menu state at activation: no entries, no handles. -/
def initMenuState : MenuState :=
  { viewMenu := [], leftHandle := none, rightHandle := none, fresh := 0 }

/-- The `sideBarMenu[area]` handle (src lines 610-613). -/
def MenuState.handleOf (ms : MenuState) : Side → Option Nat
  | .left => ms.leftHandle
  | .right => ms.rightHandle

/-- `sideBarMenu[area]?.dispose()` (src line 714): remove the entry the
stored handle refers to from the parent menu; a missing handle is a
no-op, and disposing an already-removed handle removes nothing. -/
def disposePrevious (ms : MenuState) (area : Side) : MenuState :=
  match ms.handleOf area with
  | none => ms
  | some h => { ms with viewMenu := ms.viewMenu.filter fun p => p.1 != h }

/-- The submenu items built by the loop at src lines 722-732: one item per
widget of the area, in order, labelled `Show <caption>` and bound to the
toggle command with the widget's id. -/
def menuItemsFor (widgets : List MenuWidget) : List (String × String) :=
  widgets.map fun w => ("Show " ++ w.caption, w.id)

/-- `updateMenu` (src lines 708-741), with a menu present: dispose the
previous entry for the area, build a fresh submenu from the area's current
widgets, and attach it to the View menu — recording its handle — only if at
least one item was added. -/
def updateMenu (ms : MenuState) (area : Side) (widgets : List MenuWidget) :
    MenuState :=
  let ms1 := disposePrevious ms area
  if widgets.isEmpty then ms1
  else
    { viewMenu := ms1.viewMenu ++ [(ms1.fresh, area, menuItemsFor widgets)]
      leftHandle := if area = .left then some ms1.fresh else ms1.leftHandle
      rightHandle := if area = .right then some ms1.fresh else ms1.rightHandle
      fresh := ms1.fresh + 1 }

/-- The menu half of `sidebarUpdated` (src lines 770-773): every add or
remove event on a side rebuilds that side's menu entry from the side's
current widget list.  A run is a sequence of such events, each carrying the
area and the widget list the shell reports after the event. -/
def runMenu (events : List (Side × List MenuWidget)) : MenuState :=
  events.foldl (fun ms e => updateMenu ms e.1 e.2) initMenuState

/-- The submenu entries for an area among a list of attached entries (their
item lists, in menu order). -/
def areaEntriesL (l : List (Nat × Side × List (String × String))) (area : Side) :
    List (List (String × String)) :=
  (l.filter fun p => decide (p.2.1 = area)).map fun p => p.2.2

/-- The submenu entries currently attached to the View menu for an area
(their item lists, in menu order). -/
def areaEntries (ms : MenuState) (area : Side) : List (List (String × String)) :=
  areaEntriesL ms.viewMenu area

/-- Is the handle (when present) below the fresh counter? -/
def handleBelow (h : Option Nat) (n : Nat) : Bool :=
  match h with
  | some k => k < n
  | none => true

/-- Are two handles (when both present) distinct? -/
def handlesDiffer (a b : Option Nat) : Bool :=
  match a, b with
  | some h, some k => h != k
  | _, _ => true

/-- The invariant of the menu state machine: every attached entry's handle is
recorded in `sideBarMenu` for its side, handles are below the fresh counter,
the two sides' handles differ, and each side has at most one attached
entry. -/
def MenuInv (ms : MenuState) : Prop :=
  (∀ p ∈ ms.viewMenu, p.2.1 = Side.left → ms.leftHandle = some p.1) ∧
  (∀ p ∈ ms.viewMenu, p.2.1 = Side.right → ms.rightHandle = some p.1) ∧
  handleBelow ms.leftHandle ms.fresh = true ∧
  handleBelow ms.rightHandle ms.fresh = true ∧
  handlesDiffer ms.leftHandle ms.rightHandle = true ∧
  (areaEntries ms Side.left).length ≤ 1 ∧
  (areaEntries ms Side.right).length ≤ 1

instance : DecidablePred MenuInv := by
  unfold MenuInv
  intro ms
  exact inferInstance

/-! ## Helper lemmas -/

/-- Once the disposable set is disposed, every Tree Resolver event entry
point is a no-op. -/
theorem stepTree_of_disposed (cfg : String) (st : TreeResolverState)
    (e : TreeEvent) (h : st.isDisposed = true) : stepTree cfg st e = st := by
  cases e <;> simp [stepTree, execResolveTree, routedListener, h]

/-- A disposed state absorbs any remaining event sequence. -/
theorem foldl_stepTree_of_disposed (cfg : String) (st : TreeResolverState)
    (h : st.isDisposed = true) (es : List TreeEvent) :
    es.foldl (stepTree cfg) st = st := by
  induction es with
  | nil => rfl
  | cons e es ih => rw [List.foldl_cons, stepTree_of_disposed cfg st e h, ih]

/-- The first event delivered to the freshly activated resolver disposes the
set. -/
theorem stepTree_init_isDisposed (cfg : String) (e : TreeEvent) :
    (stepTree cfg initTreeState e).isDisposed = true := by
  cases e <;> simp [stepTree, execResolveTree, routedListener, initTreeState]

/-- If a list contains an occurrence of `c :: cs`, it contains an occurrence
of the single character `c`. -/
theorem containsSub_single_of_containsSub (c : Char) (cs s : List Char)
    (h : containsSub (c :: cs) s = true) : containsSub [c] s = true := by
  induction s with
  | nil => simp [containsSub, List.isPrefixOf] at h
  | cons a as ih =>
    simp only [containsSub, Bool.or_eq_true] at h ⊢
    rcases h with h | h
    · left
      rw [List.isPrefixOf] at h
      simp only [Bool.and_eq_true, beq_iff_eq] at h
      simp [List.isPrefixOf, h.1]
    · right
      exact ih h

/-- Splitting `areaEntriesL` at a cons cell. -/
theorem areaEntriesL_cons (x : Nat × Side × List (String × String))
    (l : List (Nat × Side × List (String × String))) (a : Side) :
    areaEntriesL (x :: l) a
      = (if x.2.1 = a then [x.2.2] else []) ++ areaEntriesL l a := by
  by_cases h : x.2.1 = a <;> simp [areaEntriesL, List.filter_cons, h]

/-- Splitting `areaEntriesL` at an append. -/
theorem areaEntriesL_append (l1 l2 : List (Nat × Side × List (String × String)))
    (a : Side) :
    areaEntriesL (l1 ++ l2) a = areaEntriesL l1 a ++ areaEntriesL l2 a := by
  simp [areaEntriesL, List.filter_append]

/-- A list with no entry for an area contributes no area entries. -/
theorem areaEntriesL_eq_nil (l : List (Nat × Side × List (String × String)))
    (a : Side) (hall : ∀ p ∈ l, p.2.1 ≠ a) : areaEntriesL l a = [] := by
  induction l with
  | nil => rfl
  | cons x xs ih =>
    rw [areaEntriesL_cons]
    simp only [hall x (List.mem_cons_self x xs), if_false, List.nil_append]
    exact ih fun p hp => hall p (List.mem_cons_of_mem x hp)

/-- `areaEntriesL` is monotone with respect to the sublist order. -/
theorem areaEntriesL_sublist {l1 l2 : List (Nat × Side × List (String × String))}
    (a : Side) (h : l1.Sublist l2) :
    (areaEntriesL l1 a).Sublist (areaEntriesL l2 a) :=
  (h.filter _).map _

/-- Disposing a previous handle never changes the handles or the fresh
counter. -/
theorem disposePrevious_handles (ms : MenuState) (area : Side) :
    (disposePrevious ms area).leftHandle = ms.leftHandle ∧
    (disposePrevious ms area).rightHandle = ms.rightHandle ∧
    (disposePrevious ms area).fresh = ms.fresh := by
  unfold disposePrevious
  cases ms.handleOf area <;> simp

/-- Disposing a previous handle only removes entries. -/
theorem disposePrevious_sublist (ms : MenuState) (area : Side) :
    (disposePrevious ms area).viewMenu.Sublist ms.viewMenu := by
  unfold disposePrevious
  cases ms.handleOf area with
  | none => exact List.Sublist.refl _
  | some h => exact List.filter_sublist _

/-- When every attached entry of an area carries the recorded handle,
disposing that handle leaves no entry for the area. -/
theorem mem_disposePrevious_not_self (ms : MenuState) (area : Side)
    (hrec : ∀ p ∈ ms.viewMenu, p.2.1 = area → ms.handleOf area = some p.1) :
    ∀ p ∈ (disposePrevious ms area).viewMenu, p.2.1 ≠ area := by
  unfold disposePrevious
  cases hh : ms.handleOf area with
  | none =>
    intro p hp hpa
    have := hrec p hp hpa
    rw [hh] at this
    exact Option.noConfusion this
  | some h =>
    intro p hp hpa
    simp only [List.mem_filter] at hp
    have hph := hrec p hp.1 hpa
    rw [hh] at hph
    have hp1 : p.1 = h := (Option.some.inj hph).symm
    simp [hp1] at hp

/-- After disposing the area's recorded handle, the area has no attached
entries. -/
theorem areaEntries_disposePrevious_self (ms : MenuState) (area : Side)
    (hrec : ∀ p ∈ ms.viewMenu, p.2.1 = area → ms.handleOf area = some p.1) :
    areaEntries (disposePrevious ms area) area = [] :=
  areaEntriesL_eq_nil _ area (mem_disposePrevious_not_self ms area hrec)

/-- Characterization of one `updateMenu` call on its own area: the area's
entries afterwards are exactly the freshly built submenu, or nothing when the
widget list is empty. -/
theorem areaEntries_updateMenu_self (ms : MenuState) (area : Side)
    (widgets : List MenuWidget)
    (hrec : ∀ p ∈ ms.viewMenu, p.2.1 = area → ms.handleOf area = some p.1) :
    areaEntries (updateMenu ms area widgets) area
      = if widgets.isEmpty then [] else [menuItemsFor widgets] := by
  have hself := areaEntries_disposePrevious_self ms area hrec
  unfold updateMenu
  by_cases hw : widgets.isEmpty
  · rw [if_pos hw, if_pos hw]
    exact hself
  · rw [if_neg hw, if_neg hw]
    show areaEntriesL ((disposePrevious ms area).viewMenu ++ _) area = _
    rw [areaEntriesL_append]
    rw [areaEntries] at hself
    rw [hself]
    simp [areaEntriesL_cons, areaEntriesL]

/-- `MenuInv` holds at activation. -/
theorem menuInv_init : MenuInv initMenuState := by decide

/-- `updateMenu` preserves the menu invariant. -/
theorem updateMenu_menuInv (ms : MenuState) (area : Side)
    (widgets : List MenuWidget) (h : MenuInv ms) :
    MenuInv (updateMenu ms area widgets) := by
  obtain ⟨h1, h2, h3, h4, h5, h6, h7⟩ := h
  have hdl := disposePrevious_handles ms area
  have hsub := disposePrevious_sublist ms area
  have hmem : ∀ p ∈ (disposePrevious ms area).viewMenu, p ∈ ms.viewMenu :=
    fun p hp => hsub.mem hp
  have h1' : ∀ p ∈ (disposePrevious ms area).viewMenu,
      p.2.1 = Side.left → (disposePrevious ms area).leftHandle = some p.1 := by
    intro p hp hpa
    rw [hdl.1]
    exact h1 p (hmem p hp) hpa
  have h2' : ∀ p ∈ (disposePrevious ms area).viewMenu,
      p.2.1 = Side.right → (disposePrevious ms area).rightHandle = some p.1 := by
    intro p hp hpa
    rw [hdl.2.1]
    exact h2 p (hmem p hp) hpa
  have h6' : (areaEntries (disposePrevious ms area) Side.left).length ≤ 1 :=
    le_trans ((areaEntriesL_sublist Side.left hsub).length_le) h6
  have h7' : (areaEntries (disposePrevious ms area) Side.right).length ≤ 1 :=
    le_trans ((areaEntriesL_sublist Side.right hsub).length_le) h7
  unfold updateMenu
  by_cases hw : widgets.isEmpty
  · rw [if_pos hw]
    refine ⟨h1', h2', ?_, ?_, ?_, h6', h7'⟩
    · rw [hdl.1, hdl.2.2]
      exact h3
    · rw [hdl.2.1, hdl.2.2]
      exact h4
    · rw [hdl.1, hdl.2.1]
      exact h5
  · rw [if_neg hw]
    have hnone : ∀ p ∈ (disposePrevious ms area).viewMenu, p.2.1 ≠ area := by
      apply mem_disposePrevious_not_self
      intro p hp hpa
      cases area
      · exact h1 p hp hpa
      · exact h2 p hp hpa
    have hselfL := areaEntries_disposePrevious_self ms area
    cases area
    · refine ⟨?_, ?_, ?_, ?_, ?_, ?_, ?_⟩
      · intro p hp hpa
        rcases List.mem_append.mp hp with hp | hp
        · exact absurd hpa (hnone p hp)
        · simp only [List.mem_singleton] at hp
          rw [hp]
          simp
      · intro p hp hpa
        rcases List.mem_append.mp hp with hp | hp
        · simpa using h2' p hp hpa
        · simp only [List.mem_singleton] at hp
          rw [hp] at hpa
          simp at hpa
      · simp [handleBelow]
      · show handleBelow (disposePrevious ms Side.left).rightHandle _ = true
        rw [hdl.2.1]
        cases hr : ms.rightHandle with
        | none => simp [handleBelow]
        | some k =>
          rw [hr] at h4
          simp only [handleBelow, decide_eq_true_eq] at h4 ⊢
          rw [hdl.2.2]
          omega
      · show handlesDiffer (some (disposePrevious ms Side.left).fresh)
            (disposePrevious ms Side.left).rightHandle = true
        rw [hdl.2.1, hdl.2.2]
        cases hr : ms.rightHandle with
        | none => simp [handlesDiffer]
        | some k =>
          rw [hr] at h4
          simp only [handleBelow, decide_eq_true_eq] at h4
          simp only [handlesDiffer, bne_iff_ne, ne_eq]
          omega
      · show (areaEntriesL ((disposePrevious ms Side.left).viewMenu ++ _)
            Side.left).length ≤ 1
        rw [areaEntriesL_append]
        have := hselfL (fun p hp hpa => h1 p hp hpa)
        rw [areaEntries] at this
        rw [this]
        simp [areaEntriesL_cons, areaEntriesL]
      · show (areaEntriesL ((disposePrevious ms Side.left).viewMenu ++ _)
            Side.right).length ≤ 1
        rw [areaEntriesL_append]
        have hx : areaEntriesL
            [((disposePrevious ms Side.left).fresh, Side.left,
              menuItemsFor widgets)] Side.right = [] := by
          simp [areaEntriesL_cons, areaEntriesL]
        rw [hx, List.append_nil]
        exact h7'
    · refine ⟨?_, ?_, ?_, ?_, ?_, ?_, ?_⟩
      · intro p hp hpa
        rcases List.mem_append.mp hp with hp | hp
        · simpa using h1' p hp hpa
        · simp only [List.mem_singleton] at hp
          rw [hp] at hpa
          simp at hpa
      · intro p hp hpa
        rcases List.mem_append.mp hp with hp | hp
        · exact absurd hpa (hnone p hp)
        · simp only [List.mem_singleton] at hp
          rw [hp]
          simp
      · show handleBelow (disposePrevious ms Side.right).leftHandle _ = true
        rw [hdl.1]
        cases hl : ms.leftHandle with
        | none => simp [handleBelow]
        | some k =>
          rw [hl] at h3
          simp only [handleBelow, decide_eq_true_eq] at h3 ⊢
          rw [hdl.2.2]
          omega
      · simp [handleBelow]
      · show handlesDiffer (disposePrevious ms Side.right).leftHandle
            (some (disposePrevious ms Side.right).fresh) = true
        rw [hdl.1, hdl.2.2]
        cases hl : ms.leftHandle with
        | none => simp [handlesDiffer]
        | some k =>
          rw [hl] at h3
          simp only [handleBelow, decide_eq_true_eq] at h3
          simp only [handlesDiffer, bne_iff_ne, ne_eq]
          omega
      · show (areaEntriesL ((disposePrevious ms Side.right).viewMenu ++ _)
            Side.left).length ≤ 1
        rw [areaEntriesL_append]
        have hx : areaEntriesL
            [((disposePrevious ms Side.right).fresh, Side.right,
              menuItemsFor widgets)] Side.left = [] := by
          simp [areaEntriesL_cons, areaEntriesL]
        rw [hx, List.append_nil]
        exact h6'
      · show (areaEntriesL ((disposePrevious ms Side.right).viewMenu ++ _)
            Side.right).length ≤ 1
        rw [areaEntriesL_append]
        have := hselfL (fun p hp hpa => h2 p hp hpa)
        rw [areaEntries] at this
        rw [this]
        simp [areaEntriesL_cons, areaEntriesL]

/-- The menu invariant holds along every run of panel add/remove events. -/
theorem runMenu_menuInv (events : List (Side × List MenuWidget)) :
    MenuInv (runMenu events) := by
  rw [runMenu]
  have : ∀ ms, MenuInv ms →
      MenuInv (events.foldl (fun ms e => updateMenu ms e.1 e.2) ms) := by
    induction events with
    | nil => intro ms h; exact h
    | cons e es ih =>
      intro ms h
      exact ih _ (updateMenu_menuInv ms e.1 e.2 h)
  exact this initMenuState menuInv_init

/-! ## C1 — at-most-once resolution of the Tree Resolver -/

/-- C1: for every sequence of routed events delivered to the Tree Resolver
after activation, the promise is resolved exactly once and the set disposed
exactly once, the resolved value is the outcome of whichever recognized
condition fired first, and every event after the first leaves the state
untouched (each entry point checks the disposed flag first). -/
theorem tree_resolver_at_most_once (cfg : String) (e : TreeEvent)
    (es : List TreeEvent) :
    (runTree cfg (e :: es)).resolveCount = 1 ∧
    (runTree cfg (e :: es)).disposeCount = 1 ∧
    (runTree cfg (e :: es)).resolved = some (eventOutcome cfg e) ∧
    runTree cfg (e :: es) = stepTree cfg initTreeState e := by
  have habs : runTree cfg (e :: es) = stepTree cfg initTreeState e := by
    rw [runTree, List.foldl_cons]
    exact foldl_stepTree_of_disposed cfg _ (stepTree_init_isDisposed cfg e) es
  refine ⟨?_, ?_, ?_, habs⟩ <;> rw [habs] <;>
    cases e <;>
      simp [stepTree, execResolveTree, routedListener, initTreeState, eventOutcome]

/-! ## C2 — command-palette mirror of the sidebars -/

/-- C2 (code bug): the claim says that with a command palette present every
panel-add event makes the mirror gain an entry and every panel-remove event
removes the matching entry, but in the program the palette branch of
`sidebarUpdated` is unreachable: the `const` at src line 799 shadows the
outer `let` at src line 615, so the guard at src line 776 always reads null
and every panel add/remove event leaves the command-palette mirror
untouched — in particular the panel-add of widget `w` on the left side
performs no palette update. -/
theorem sidebar_palette_update_unreachable :
    sidebarUpdatedPalette outerSideBarPalette Side.left "w" PanelAction.add
      = none ∧
    ∀ (side : Side) (id : String) (action : PanelAction),
      sidebarUpdatedPalette outerSideBarPalette side id action = none :=
  ⟨rfl, fun _ _ _ => rfl⟩

/-! ## C3 — navigation to `/nonexistent` -/

/-- C3 counterexample: the tree-resolution pattern, matched unanchored as
JavaScript does, does match `/nonexistent` (any path containing `/`), and a
full navigation to `/nonexistent` fulfills the promise with a
`{browser, file}` value, not with `null`. -/
theorem nonexistent_route_cex :
    jsTestTreeResolvePattern "/nonexistent" = true ∧
    (routeNavigation "" "/nonexistent" "" initTreeState).resolved
        = some (some { browser := "", file := "" }) ∧
    (routeNavigation "" "/nonexistent" "" initTreeState).resolved
        ≠ some none := by
  refine ⟨by decide, by decide, by decide⟩

/-- C3 amended: navigating to `/nonexistent` makes the resolve-tree command
fire (the unanchored tree pattern matches every path containing `/`), so the
paths promise fulfills with `{browser: "", file: treePath}` rather than
`null`. -/
theorem nonexistent_route_resolves_paths (cfg : String) :
    (routeNavigation cfg "/nonexistent" "" initTreeState).resolved
      = some (some { browser := "", file := cfg }) := by
  have hdoc : jsTestDocPattern "/nonexistent" = false := by decide
  have htree : jsTestTreeResolvePattern "/nonexistent" = true := by decide
  have hbrowser : browserOf "" = "" := by decide
  simp [routeNavigation, hdoc, htree, execResolveTree, routedListener,
    initTreeState, hbrowser]

/-! ## C4 — mutual exclusivity of the two route patterns -/

/-- C4 counterexample: the path `/notebooks/a` matches both the document-open
pattern and the tree-resolution pattern under JavaScript unanchored
matching. -/
theorem patterns_both_match_cex :
    jsTestDocPattern "/notebooks/a" = true ∧
    jsTestTreeResolvePattern "/notebooks/a" = true := by
  refine ⟨by decide, by decide⟩

/-- C4 amended: the two patterns are not mutually exclusive — the
tree-resolution pattern `/(/tree/.*)?` matches, unanchored, every path
containing a `/`, so every path matched by the document-open pattern
`/(notebooks|edit)/(.*)` is also matched by the tree-resolution pattern. -/
theorem doc_pattern_implies_tree_pattern (s : String)
    (h : jsTestDocPattern s = true) : jsTestTreeResolvePattern s = true := by
  simp only [jsTestDocPattern, Bool.or_eq_true] at h
  rcases h with h | h
  · exact containsSub_single_of_containsSub '/' _ s.data h
  · exact containsSub_single_of_containsSub '/' _ s.data h

/-- Witness for the amended C4 at the path `/notebooks/a`. -/
theorem doc_pattern_implies_tree_pattern_witness :
    jsTestDocPattern "/notebooks/a" = true ∧
    jsTestTreeResolvePattern "/notebooks/a" = true :=
  ⟨by decide, doc_pattern_implies_tree_pattern "/notebooks/a" (by decide)⟩

/-! ## C5 — the `/tree?file-browser-path=/data` scenario -/

/-- C5: when the resolve-tree command executes first for the query
`?file-browser-path=/data` while the page configuration's `treePath` is
`notebooks/a.ipynb`, the promise resolves with
`{browser: "/data", file: "notebooks/a.ipynb"}`; and whenever the
`file-browser-path` query key is absent, the browser component defaults to
the empty string. -/
theorem resolve_tree_scenario :
    (execResolveTree "notebooks/a.ipynb" "?file-browser-path=/data"
        initTreeState).resolved
      = some (some { browser := "/data", file := "notebooks/a.ipynb" }) ∧
    ∀ cfg search, queryGet search "file-browser-path" = none →
      (execResolveTree cfg search initTreeState).resolved
        = some (some { browser := "", file := cfg }) := by
  constructor
  · decide
  · intro cfg search h
    simp [execResolveTree, initTreeState, browserOf, h]

/-- Witness for C5's default branch at an absent query key. -/
theorem resolve_tree_scenario_witness :
    queryGet "x=1" "file-browser-path" = none ∧
    (execResolveTree "t" "x=1" initTreeState).resolved
      = some (some { browser := "", file := "t" }) :=
  ⟨by decide, resolve_tree_scenario.2 "t" "x=1" (by decide)⟩

/-! ## C6 — idempotence of the Tree Path Updater -/

/-- C6 counterexample: calling the updater twice with a path that already
equals the recorded `treePath` performs zero history mutations, not exactly
one. -/
theorem update_tree_path_cex :
    ¬((updateTreePath
          (updateTreePath { treePath := "a", navigations := 0, writes := 0 } "a")
          "a").navigations = 0 + 1) := by
  decide

/-- C6 amended: calling the Tree Path Updater twice with the same path is
idempotent — the second call is a no-op — and when the path differs from the
initially recorded `treePath` the two calls together perform exactly one
history mutation and exactly one configuration write. -/
theorem update_tree_path_idempotent (st : UpdaterState) (p : String) :
    updateTreePath (updateTreePath st p) p = updateTreePath st p ∧
    (p ≠ st.treePath →
      (updateTreePath (updateTreePath st p) p).navigations
          = st.navigations + 1 ∧
      (updateTreePath (updateTreePath st p) p).writes = st.writes + 1) := by
  by_cases h : p = st.treePath
  · simp [updateTreePath, h]
  · simp [updateTreePath, h]

/-- Witness for the amended C6 at a fresh path. -/
theorem update_tree_path_idempotent_witness :
    ("b" : String) ≠ "a" ∧
    (updateTreePath
        (updateTreePath { treePath := "a", navigations := 0, writes := 0 } "b")
        "b").navigations = 0 + 1 ∧
    (updateTreePath
        (updateTreePath { treePath := "a", navigations := 0, writes := 0 } "b")
        "b").writes = 0 + 1 :=
  ⟨by decide,
   (update_tree_path_idempotent
      { treePath := "a", navigations := 0, writes := 0 } "b").2 (by decide)⟩

/-! ## C7 — toggle cycle of length two -/

/-- C7: from a collapsed side, toggling `{side, W}` expands the side with
`W`; toggling again collapses it and, when a main-area widget is current,
re-activates that widget by id (exactly once); a third toggle reproduces the
first transition, so the cycle has length two. -/
theorem toggle_panel_cycle (st : ShellState) (side : Side) (w : String)
    (h : (st.side side).collapsed = true) :
    (togglePanel st side w).side side
        = { collapsed := false, currentWidget := some w } ∧
    ((togglePanel (togglePanel st side w) side w).side side).collapsed
        = true ∧
    (togglePanel (togglePanel st side w) side w).activations
        = st.activations ++
            (match st.mainCurrent with | some d => [d] | none => []) ∧
    (togglePanel (togglePanel (togglePanel st side w) side w) side w).side side
        = { collapsed := false, currentWidget := some w } := by
  cases side <;>
    cases hm : st.mainCurrent <;>
      simp [togglePanel, ShellState.side, ShellState.setSide, expandSide,
        collapseSide, ShellState.side] at h ⊢ <;>
        simp [h, hm]

/-- Witness for C7 at a concrete shell state. -/
theorem toggle_panel_cycle_witness :
    (({ left := { collapsed := true, currentWidget := none },
        right := { collapsed := true, currentWidget := none },
        mainCurrent := some "doc", activations := [] } : ShellState).side
          Side.left).collapsed = true ∧
    (togglePanel
        { left := { collapsed := true, currentWidget := none },
          right := { collapsed := true, currentWidget := none },
          mainCurrent := some "doc", activations := [] } Side.left "W").side
        Side.left = { collapsed := false, currentWidget := some "W" } :=
  ⟨by decide,
   (toggle_panel_cycle
      { left := { collapsed := true, currentWidget := none },
        right := { collapsed := true, currentWidget := none },
        mainCurrent := some "doc", activations := [] } Side.left "W"
      (by decide)).1⟩

/-! ## C9 — the opener's execute promise never fulfills -/

/-- C9: for every routed location whose path matches the document-open
pattern with a non-empty captured path, the `router:tree` execute awaits a
newly constructed promise whose executor opens the document but never calls
resolve or reject, so the execute promise never fulfills. -/
theorem opener_never_fulfills (path : String) (cs : List Char)
    (h1 : docPatternCapture path.data = some cs) (h2 : cs ≠ []) :
    openerFulfills path = false := by
  unfold openerFulfills openerExecute
  rw [h1]
  cases cs with
  | nil => exact absurd rfl h2
  | cons c cs' => simp [promiseSettles]

/-- Witness for C9 at the path `/notebooks/a.ipynb`. -/
theorem opener_never_fulfills_witness :
    docPatternCapture "/notebooks/a.ipynb".data = some "a.ipynb".data ∧
    "a.ipynb".data ≠ [] ∧
    openerFulfills "/notebooks/a.ipynb" = false :=
  ⟨by decide, by decide,
   opener_never_fulfills "/notebooks/a.ipynb" "a.ipynb".data (by decide)
     (by decide)⟩

/-! ## C8 — menu rebuilt from scratch, attached only when non-empty -/

/-- C8: on a panel add or remove, `updateMenu` rebuilds the side's menu
entry from scratch — after the rebuild the side's attached entries are
exactly one fresh submenu enumerating the side's current panels in order,
and nothing at all when the side has no panels (so removing the last widget
leaves no submenu entry for that side in the parent menu). -/
theorem menu_rebuilt_from_scratch (ms : MenuState) (area : Side)
    (widgets : List MenuWidget) (h : MenuInv ms) :
    areaEntries (updateMenu ms area widgets) area
      = if widgets.isEmpty then [] else [menuItemsFor widgets] := by
  apply areaEntries_updateMenu_self
  intro p hp hpa
  cases area
  · exact h.1 p hp hpa
  · exact h.2.1 p hp hpa

/-- Witness for C8: one rebuild with a widget attaches exactly its submenu,
and a rebuild with no widgets leaves no entry. -/
theorem menu_rebuilt_from_scratch_witness :
    MenuInv initMenuState ∧
    areaEntries
        (updateMenu initMenuState Side.left [{ id := "w", caption := "c" }])
        Side.left
      = [[("Show c", "w")]] ∧
    areaEntries (updateMenu initMenuState Side.left []) Side.left = [] :=
  ⟨menuInv_init,
   by
    rw [menu_rebuilt_from_scratch initMenuState Side.left
      [{ id := "w", caption := "c" }] menuInv_init]
    decide,
   by
    rw [menu_rebuilt_from_scratch initMenuState Side.left [] menuInv_init]
    decide⟩

/-! ## C10 — at most one submenu entry per side -/

/-- C10: after any sequence of panel add/remove events, each sidebar side
contributes at most one submenu entry to the View menu, because every
rebuild first disposes the side's previously attached handle before possibly
attaching a new one. -/
theorem sidebar_menu_at_most_one (events : List (Side × List MenuWidget)) :
    (areaEntries (runMenu events) Side.left).length ≤ 1 ∧
    (areaEntries (runMenu events) Side.right).length ≤ 1 :=
  ⟨(runMenu_menuInv events).2.2.2.2.2.1,
   (runMenu_menuInv events).2.2.2.2.2.2⟩

end NotebookApp
